import Mathlib

/-!
Verification of the TPP-LLM embedding runner (src/tpp_llm_embedding/runner.py).

The runner is an orchestration layer over external collaborators: a model
(forward passes over text or event inputs), a loss function, an Adam
optimizer, learning-rate-schedule factories from the transformers library,
a similarity-evaluation routine, and tensor concatenation from torch.
Those collaborators are abstracted as a context of abstract functions over
type parameters `T` (a per-example tensor), `P` (the model parameters),
`O` (optimizer state), `S` (scheduler state) and `V` (a per-example
embedding vector).  The runner code itself (batch dispatch, epoch loop,
step counting, scheduler selection, error raising) is translated directly.

Exceptions are modelled with `Except (String × St ...)`: the error value
carries the message of the raised Python exception together with the
runner state at the moment of the raise, so that statements about mutation
on error paths can be made.
-/

namespace TPPLLM

/-- Metrics: a mapping from metric name to scalar value (a Python dict,
modelled as an association list; the empty dict is the empty list). -/
abbrev Metrics : Type := List (String × Rat)

/-- A batch of event sequences (runner.py lines 49-55): per-example lists of
the three numeric fields (each per-example sequence tensor abstracted as one
value of `T`) and the two text fields. -/
structure Batch (T : Type) where
  time_since_start : List T
  time_since_last_event : List T
  type_event : List T
  type_text : List String
  description : List String
deriving DecidableEq

/-- The argument of a model forward pass: the `inputs`/`input_type` pair of
runner.py lines 61-62 and 87-88. -/
inductive ModelInput (T : Type) where
  | text (inputs : List String)
  | event (inputs : List T × List String)
deriving DecidableEq

/-- The mutable attributes of `TPPLLMEmbeddingRunner` (runner.py lines 29-38):
model parameters, the model train/eval mode flag, the four counters, and the
optionally-initialized scheduler and optimizer. -/
structure St (P O S : Type) where
  params : P
  training : Bool
  num_train_epochs : Nat
  num_training_steps : Nat
  num_warmup_steps : Int
  global_step : Nat
  scheduler : Option S
  optimizer : Option O
deriving DecidableEq

/-- The state set up by `__init__` (runner.py lines 21-38): all counters zero,
no scheduler, no optimizer; a fresh nn.Module is in training mode. -/
def initSt {P O S : Type} (params : P) : St P O S :=
  { params := params, training := true, num_train_epochs := 0,
    num_training_steps := 0, num_warmup_steps := 0, global_step := 0,
    scheduler := none, optimizer := none }

/-- The external collaborators of the runner, abstracted as functions:
the model forward (depending on the train/eval mode flag and the current
parameters), the loss, the device move, the Adam constructor and its
zero-grad and step operations (a step consumes the back-propagated loss and
yields new optimizer state and parameters), the scheduler step (which may
update the learning rate held in the optimizer), the four transformers
schedule factories, and the similarity-evaluation routine. -/
structure Ctx (T P O S V : Type) where
  forward : Bool → P → ModelInput T → List V
  lossFn : List V → List V → Rat
  toDevice : T → T
  adamInit : P → Rat → O
  zeroGrad : O → O
  optStep : O → P → Rat → O × P
  schedStep : S → O → S × O
  getConstantSchedule : O → S
  getConstantScheduleWithWarmup : O → Int → S
  getLinearScheduleWithWarmup : O → Int → Nat → S
  getCosineScheduleWithWarmup : O → Int → Nat → Rat → S
  evalSim : List V → List V → Metrics

variable {T P O S V : Type}

/-- The text forward pass of runner.py lines 61 and 87: the model applied to
the descriptions of a batch. -/
def descEmb (ctx : Ctx T P O S V) (mode : Bool) (p : P) (b : Batch T) : List V :=
  ctx.forward mode p (ModelInput.text b.description)

/-- The event forward pass of runner.py lines 62 and 88: the model applied to
the device-moved time_since_start sequences paired with type_text. -/
def seqEmb (ctx : Ctx T P O S V) (mode : Bool) (p : P) (b : Batch T) : List V :=
  ctx.forward mode p (ModelInput.event (b.time_since_start.map ctx.toDevice, b.type_text))

/-- `run_batch` (runner.py lines 40-93).  Moves the three numeric fields to
the device; on phase `train` sets the model to training mode, runs the two
forward passes, computes the loss and the printed metrics dict -- whose
values are evaluated left to right: the loss item, the learning-rate read
from the optimizer (AttributeError when the optimizer is still None), and
the epoch fraction global_step / num_training_steps * num_train_epochs
(ZeroDivisionError when num_training_steps is zero) -- then zero-grads,
back-propagates, applies one optimizer step, one scheduler step
(AttributeError when the scheduler is still None), and increments
global_step; on phase `eval` sets the model to eval mode and runs the two
forward passes under no_grad; any other phase raises the unknown-phase
KeyError.  Errors carry the state at the moment of the raise. -/
def runBatch (ctx : Ctx T P O S V) (st : St P O S) (batch : Batch T) (phase : String) :
    Except (String × St P O S) (St P O S × List V × List V) :=
  let moved : Batch T :=
    { time_since_start := batch.time_since_start.map ctx.toDevice
      time_since_last_event := batch.time_since_last_event.map ctx.toDevice
      type_event := batch.type_event.map ctx.toDevice
      type_text := batch.type_text
      description := batch.description }
  if phase = "train" then
    let st1 : St P O S := { st with training := true }
    let desc := ctx.forward true st1.params (ModelInput.text moved.description)
    let seq := ctx.forward true st1.params
      (ModelInput.event (moved.time_since_start, moved.type_text))
    let loss := ctx.lossFn desc seq
    match st1.optimizer with
    | none => Except.error ("AttributeError: NoneType object has no attribute param_groups", st1)
    | some opt =>
      if st1.num_training_steps = 0 then
        Except.error ("ZeroDivisionError: division by zero", st1)
      else
        let stepped := ctx.optStep (ctx.zeroGrad opt) st1.params loss
        let st2 : St P O S := { st1 with optimizer := some stepped.1, params := stepped.2 }
        match st2.scheduler with
        | none => Except.error ("AttributeError: NoneType object has no attribute step", st2)
        | some sch =>
          let schStepped := ctx.schedStep sch stepped.1
          Except.ok
            ({ st2 with scheduler := some schStepped.1
                        optimizer := some schStepped.2
                        global_step := st2.global_step + 1 }, desc, seq)
  else if phase = "eval" then
    let st1 : St P O S := { st with training := false }
    let desc := ctx.forward false st1.params (ModelInput.text moved.description)
    let seq := ctx.forward false st1.params
      (ModelInput.event (moved.time_since_start, moved.type_text))
    Except.ok (st1, desc, seq)
  else
    Except.error ("Unknown phase: " ++ phase ++ ".", st)

/-- torch.cat over the per-batch embedding lists collected by an epoch
(runner.py lines 111-112): concatenation along dim 0, which raises on an
empty tensor list. -/
def torchCat (xs : List (List V)) : Option (List V) :=
  if xs.isEmpty then none else some xs.flatten

/-- The batch loop of `run_epoch` (runner.py lines 106-109): processes the
remaining batches in order, appending each pair of embedding batches to the
accumulators. -/
def runEpochAux (ctx : Ctx T P O S V) (phase : String) :
    List (Batch T) → St P O S → List (List V) → List (List V) →
    Except (String × St P O S) (St P O S × List (List V) × List (List V))
  | [], st, da, sa => Except.ok (st, da, sa)
  | b :: rest, st, da, sa =>
    match runBatch ctx st b phase with
    | Except.error e => Except.error e
    | Except.ok (st1, d, s) => runEpochAux ctx phase rest st1 (da ++ [d]) (sa ++ [s])

/-- `run_epoch` (runner.py lines 95-119): runs every batch, concatenates the
collected embeddings with torch.cat (raising on an empty dataloader), then
on phase `eval` delegates to the similarity-evaluation routine over the full
concatenated embeddings, and otherwise returns the empty metrics dict. -/
def runEpoch (ctx : Ctx T P O S V) (st : St P O S) (dl : List (Batch T)) (phase : String) :
    Except (String × St P O S) (St P O S × Metrics) :=
  match runEpochAux ctx phase dl st [] [] with
  | Except.error e => Except.error e
  | Except.ok (st1, da, sa) =>
    match torchCat da, torchCat sa with
    | some desc, some seq =>
      if phase = "eval" then Except.ok (st1, ctx.evalSim desc seq)
      else Except.ok (st1, [])
    | _, _ => Except.error ("RuntimeError: torch.cat expected a non-empty TensorList", st1)

/-- Python int() applied to a rational: truncation toward zero. -/
def pyInt (q : Rat) : Int := if q < 0 then Int.ceil q else Int.floor q

/-- The initialization prefix of `run` (runner.py lines 136-141): stores the
epoch count, computes num_training_steps = num_train_epochs *
len(dataloader_train) -- a TypeError when the training dataloader is None --
computes num_warmup_steps = int(warmup_ratio * num_training_steps), resets
global_step to 0, and constructs the Adam optimizer (also returned directly,
for the scheduler factories). -/
def runInit (ctx : Ctx T P O S V) (st : St P O S) (dlTrain : Option (List (Batch T)))
    (lr : Rat) (ep : Nat) (wr : Rat) :
    Except (String × St P O S) (St P O S × O) :=
  let st1 : St P O S := { st with num_train_epochs := ep }
  match dlTrain with
  | none => Except.error ("TypeError: object of type NoneType has no len()", st1)
  | some l =>
    let steps := st1.num_train_epochs * l.length
    let opt := ctx.adamInit st1.params lr
    Except.ok
      ({ st1 with num_training_steps := steps
                  num_warmup_steps := pyInt (wr * (steps : Rat))
                  global_step := 0
                  optimizer := some opt }, opt)

/-- The scheduler selection of `run` (runner.py lines 143-167): dispatch on
the lr_scheduler_type string over the four transformers factories (cosine is
called with num_cycles = 0.5), raising the unknown-scheduler KeyError on any
other string. -/
def schedulerInit (ctx : Ctx T P O S V) (st : St P O S) (opt : O) (schedType : String) :
    Except (String × St P O S) (St P O S) :=
  if schedType = "constant" then
    Except.ok { st with scheduler := some (ctx.getConstantSchedule opt) }
  else if schedType = "constant_with_warmup" then
    Except.ok { st with scheduler := some (ctx.getConstantScheduleWithWarmup opt st.num_warmup_steps) }
  else if schedType = "linear" then
    let sch := ctx.getLinearScheduleWithWarmup opt st.num_warmup_steps st.num_training_steps
    Except.ok { st with scheduler := some sch }
  else if schedType = "cosine" then
    let sch := ctx.getCosineScheduleWithWarmup opt st.num_warmup_steps st.num_training_steps (1 / 2)
    Except.ok { st with scheduler := some sch }
  else
    Except.error ("Unknown learning rate scheduler type: " ++ schedType, st)

/-- The per-epoch loop of `run` (runner.py lines 181-199), iterated for the
requested number of epochs: a training epoch when the training dataloader is
truthy (non-None and non-empty), a validation epoch when the validation
dataloader is truthy -- updating the best-result tracker when the cosine_mrr
metric strictly improves (a KeyError when the metric is absent) -- and a
test epoch when the test dataloader is truthy. -/
def runLoop (ctx : Ctx T P O S V) (dlTrain dlVal dlTest : Option (List (Batch T))) :
    Nat → Option Metrics → St P O S → Except (String × St P O S) (St P O S)
  | 0, _, st => Except.ok st
  | n + 1, best, st =>
    match
      (match dlTrain with
       | some l =>
         if l.isEmpty then Except.ok st
         else
           match runEpoch ctx st l ("train") with
           | Except.error e => Except.error e
           | Except.ok r => Except.ok r.1
       | none => Except.ok st)
    with
    | Except.error e => Except.error e
    | Except.ok st1 =>
      match
        (match dlVal with
         | some l =>
           if l.isEmpty then Except.ok (st1, best)
           else
             match runEpoch ctx st1 l ("eval") with
             | Except.error e => Except.error e
             | Except.ok r =>
               match best with
               | none => Except.ok (r.1, best)
               | some b =>
                 match List.lookup ("cosine_mrr") r.2 with
                 | none => Except.error ("KeyError: cosine_mrr", r.1)
                 | some x =>
                   match List.lookup ("cosine_mrr") b with
                   | none => Except.error ("KeyError: cosine_mrr", r.1)
                   | some y => Except.ok (r.1, if y < x then some r.2 else best)
         | none => Except.ok (st1, best))
      with
      | Except.error e => Except.error e
      | Except.ok rb =>
        match
          (match dlTest with
           | some l =>
             if l.isEmpty then Except.ok rb.1
             else
               match runEpoch ctx rb.1 l ("eval") with
               | Except.error e => Except.error e
               | Except.ok r => Except.ok r.1
           | none => Except.ok rb.1)
        with
        | Except.error e => Except.error e
        | Except.ok st3 => runLoop ctx dlTrain dlVal dlTest n rb.2 st3

/-- `run` (runner.py lines 121-199): initialization of the counters and the
optimizer, scheduler selection, the initial validation epoch (seeding the
best-result tracker) and initial test epoch when the respective dataloaders
are truthy, then the per-epoch loop. -/
def run (ctx : Ctx T P O S V) (st : St P O S) (dlTrain dlVal dlTest : Option (List (Batch T)))
    (lr : Rat) (schedType : String) (ep : Nat) (wr : Rat) :
    Except (String × St P O S) (St P O S) :=
  match runInit ctx st dlTrain lr ep wr with
  | Except.error e => Except.error e
  | Except.ok (st1, opt) =>
    match schedulerInit ctx st1 opt schedType with
    | Except.error e => Except.error e
    | Except.ok st2 =>
      match
        (match dlVal with
         | some l =>
           if l.isEmpty then Except.ok (st2, (none : Option Metrics))
           else
             match runEpoch ctx st2 l ("eval") with
             | Except.error e => Except.error e
             | Except.ok r => Except.ok (r.1, some r.2)
         | none => Except.ok (st2, (none : Option Metrics)))
      with
      | Except.error e => Except.error e
      | Except.ok rb =>
        match
          (match dlTest with
           | some l =>
             if l.isEmpty then Except.ok rb.1
             else
               match runEpoch ctx rb.1 l ("eval") with
               | Except.error e => Except.error e
               | Except.ok r => Except.ok r.1
           | none => Except.ok rb.1)
        with
        | Except.error e => Except.error e
        | Except.ok st4 => runLoop ctx dlTrain dlVal dlTest st4.num_train_epochs rb.2 st4

/-! Concrete instantiation used to evaluate the embedding on small inputs:
tensors and parameters are integers, the optimizer state is a pair of the
learning rate and a step count, the scheduler state counts its steps, and an
embedding vector is an integer. -/

/-- A small concrete collaborator context: the text forward returns one copy
of the parameters per description, the event forward returns params + 1 per
sequence, the optimizer step increments the parameters, and the scheduler
step increments its counter. -/
def ctxW : Ctx Int Int (Rat × Nat) Nat Int :=
  { forward := fun _ p inp =>
      match inp with
      | ModelInput.text ds => ds.map fun _ => p
      | ModelInput.event pr => pr.1.map fun _ => p + 1
    lossFn := fun d s => (d.length : Rat) + (s.length : Rat)
    toDevice := fun t => t
    adamInit := fun _ lr => (lr, 0)
    zeroGrad := fun o => o
    optStep := fun o p _ => (o, p + 1)
    schedStep := fun s o => (s + 1, o)
    getConstantSchedule := fun _ => 0
    getConstantScheduleWithWarmup := fun _ _ => 0
    getLinearScheduleWithWarmup := fun _ _ _ => 0
    getCosineScheduleWithWarmup := fun _ _ _ _ => 0
    evalSim := fun d _ => [("cosine_mrr", (d.length : Rat))] }

/-- A concrete two-example batch. -/
def batchW : Batch Int :=
  { time_since_start := [1, 2]
    time_since_last_event := [1, 1]
    type_event := [0, 1]
    type_text := ["a", "b"]
    description := ["d1", "d2"] }

/-- The same batch with different time_since_last_event and type_event. -/
def batchW2 : Batch Int :=
  { batchW with time_since_last_event := [9, 9]
                type_event := [7, 7] }

/-- A concrete runner state with optimizer and scheduler initialized and a
positive training-step count. -/
def stW : St Int (Rat × Nat) Nat :=
  { params := 0
    training := true
    num_train_epochs := 1
    num_training_steps := 2
    num_warmup_steps := 0
    global_step := 0
    scheduler := some 0
    optimizer := some (1, 0) }

/-- A concrete runner state with optimizer and scheduler initialized but a
zero training-step count, as produced by a run call with zero epochs. -/
def stZeroSteps : St Int (Rat × Nat) Nat :=
  { params := 0
    training := false
    num_train_epochs := 0
    num_training_steps := 0
    num_warmup_steps := 0
    global_step := 5
    scheduler := some 0
    optimizer := some (1, 0) }

/-! Helper lemmas shared by the per-claim theorems. -/

/-- Closed form of a successful train batch: both forward passes on the
current parameters, then one zero-grad plus optimizer step, one scheduler
step, and a global-step increment. -/
theorem runBatch_train_eq (ctx : Ctx T P O S V) (st : St P O S) (batch : Batch T)
    (opt : O) (sch : S) (hopt : st.optimizer = some opt) (hsch : st.scheduler = some sch)
    (hsteps : st.num_training_steps ≠ 0) :
    runBatch ctx st batch ("train") =
      Except.ok
        ({ st with training := true
                   params := (ctx.optStep (ctx.zeroGrad opt) st.params
                     (ctx.lossFn (descEmb ctx true st.params batch)
                       (seqEmb ctx true st.params batch))).2
                   optimizer := some (ctx.schedStep sch (ctx.optStep (ctx.zeroGrad opt) st.params
                     (ctx.lossFn (descEmb ctx true st.params batch)
                       (seqEmb ctx true st.params batch))).1).2
                   scheduler := some (ctx.schedStep sch (ctx.optStep (ctx.zeroGrad opt) st.params
                     (ctx.lossFn (descEmb ctx true st.params batch)
                       (seqEmb ctx true st.params batch))).1).1
                   global_step := st.global_step + 1 },
         descEmb ctx true st.params batch, seqEmb ctx true st.params batch) := by
  simp [runBatch, descEmb, seqEmb, hopt, hsch, hsteps]

/-- Closed form of an eval batch: both forward passes in eval mode; only the
train/eval flag of the state changes. -/
theorem runBatch_eval_eq (ctx : Ctx T P O S V) (st : St P O S) (batch : Batch T) :
    runBatch ctx st batch ("eval") =
      Except.ok ({ st with training := false },
        descEmb ctx false st.params batch, seqEmb ctx false st.params batch) := by
  simp [runBatch, descEmb, seqEmb]

/-- Truncation toward zero agrees with floor on nonnegative arguments. -/
theorem pyInt_eq_floor (q : Rat) (h : 0 ≤ q) : pyInt q = Int.floor q := by
  simp [pyInt, not_lt.mpr h]

/-- Closed form of the batch loop in eval phase: the final state differs from
the input state only in the train/eval flag (when at least one batch ran),
and the accumulators are extended by one embedding batch per input batch,
all computed from the unchanged parameters. -/
theorem runEpochAux_eval (ctx : Ctx T P O S V) :
    ∀ (dl : List (Batch T)) (st : St P O S) (da sa : List (List V)),
    runEpochAux ctx ("eval") dl st da sa =
      Except.ok ((if dl.isEmpty then st else { st with training := false }),
        da ++ dl.map (descEmb ctx false st.params),
        sa ++ dl.map (seqEmb ctx false st.params))
  | [], st, da, sa => by simp [runEpochAux]
  | b :: rest, st, da, sa => by
    have ih := runEpochAux_eval ctx rest { st with training := false }
      (da ++ [descEmb ctx false st.params b]) (sa ++ [seqEmb ctx false st.params b])
    simp only [runEpochAux, runBatch_eval_eq, ih]
    simp [List.append_assoc]

/-- The batch loop in train phase: under an initialized optimizer and
scheduler and a positive training-step count, every batch is processed, the
accumulators grow by one embedding batch per input batch, the invariant is
preserved, and the global step advances by the number of batches. -/
theorem runEpochAux_train_ok (ctx : Ctx T P O S V) :
    ∀ (dl : List (Batch T)) (st : St P O S) (da sa : List (List V)),
    st.optimizer.isSome = true → st.scheduler.isSome = true → st.num_training_steps ≠ 0 →
    ∃ st1 descs seqs,
      runEpochAux ctx ("train") dl st da sa = Except.ok (st1, descs, seqs) ∧
      descs.length = da.length + dl.length ∧ seqs.length = sa.length + dl.length ∧
      st1.optimizer.isSome = true ∧ st1.scheduler.isSome = true ∧
      st1.num_training_steps = st.num_training_steps ∧
      st1.global_step = st.global_step + dl.length
  | [], st, da, sa => by
    intro h1 h2 h3
    exact ⟨st, da, sa, rfl, by simp, by simp, h1, h2, rfl, by simp⟩
  | b :: rest, st, da, sa => by
    intro h1 h2 h3
    obtain ⟨opt, hopt⟩ := Option.isSome_iff_exists.mp h1
    obtain ⟨sch, hsch⟩ := Option.isSome_iff_exists.mp h2
    obtain ⟨st1, descs, seqs, heq, hld, hls, ho, hs, hn, hg⟩ :=
      runEpochAux_train_ok ctx rest
        ({ st with
            training := true
            params := (ctx.optStep (ctx.zeroGrad opt) st.params
              (ctx.lossFn (descEmb ctx true st.params b) (seqEmb ctx true st.params b))).2
            optimizer := some (ctx.schedStep sch (ctx.optStep (ctx.zeroGrad opt) st.params
              (ctx.lossFn (descEmb ctx true st.params b) (seqEmb ctx true st.params b))).1).2
            scheduler := some (ctx.schedStep sch (ctx.optStep (ctx.zeroGrad opt) st.params
              (ctx.lossFn (descEmb ctx true st.params b) (seqEmb ctx true st.params b))).1).1
            global_step := st.global_step + 1 })
        (da ++ [descEmb ctx true st.params b]) (sa ++ [seqEmb ctx true st.params b])
        rfl rfl h3
    refine ⟨st1, descs, seqs, ?_, ?_, ?_, ho, hs, hn, ?_⟩
    · simp only [runEpochAux, runBatch_train_eq ctx st b opt sch hopt hsch h3]
      exact heq
    · simp at hld ⊢
      omega
    · simp at hls ⊢
      omega
    · simp at hg ⊢
      omega

/-- Per-batch global-step discipline, all phases, both outcomes: on success
the step counter gains exactly 1 in train phase and is unchanged otherwise;
on every raise it is unchanged. -/
theorem runBatch_step_mono (ctx : Ctx T P O S V) (st : St P O S) (batch : Batch T)
    (phase : String) :
    (∀ st1 d s, runBatch ctx st batch phase = Except.ok (st1, d, s) →
        st1.global_step = if phase = "train" then st.global_step + 1 else st.global_step) ∧
    (∀ msg st1, runBatch ctx st batch phase = Except.error (msg, st1) →
        st1.global_step = st.global_step) := by
  by_cases hp : phase = "train"
  · subst hp
    cases hopt : st.optimizer with
    | none =>
      constructor
      · intro st1 d s h
        simp [runBatch, hopt] at h
      · intro msg st1 h
        simp [runBatch, hopt] at h
        rw [← h.2]
    | some opt =>
      by_cases hn : st.num_training_steps = 0
      · constructor
        · intro st1 d s h
          simp [runBatch, hopt, hn] at h
        · intro msg st1 h
          simp [runBatch, hopt, hn] at h
          rw [← h.2]
      · cases hsch : st.scheduler with
        | none =>
          constructor
          · intro st1 d s h
            simp [runBatch, hopt, hn, hsch] at h
          · intro msg st1 h
            simp [runBatch, hopt, hn, hsch] at h
            rw [← h.2]
        | some sch =>
          constructor
          · intro st1 d s h
            rw [runBatch_train_eq ctx st batch opt sch hopt hsch hn] at h
            cases h
            simp
          · intro msg st1 h
            rw [runBatch_train_eq ctx st batch opt sch hopt hsch hn] at h
            cases h
  · by_cases he : phase = "eval"
    · subst he
      constructor
      · intro st1 d s h
        rw [runBatch_eval_eq ctx st batch] at h
        cases h
        simp
      · intro msg st1 h
        rw [runBatch_eval_eq ctx st batch] at h
        cases h
    · constructor
      · intro st1 d s h
        simp [runBatch, hp, he] at h
      · intro msg st1 h
        simp [runBatch, hp, he] at h
        rw [← h.2]

/-- Per-epoch global-step monotonicity, all phases, both outcomes. -/
theorem runEpochAux_step_mono (ctx : Ctx T P O S V) (phase : String) :
    ∀ (dl : List (Batch T)) (st : St P O S) (da sa : List (List V)),
    (∀ st1 ds ss, runEpochAux ctx phase dl st da sa = Except.ok (st1, ds, ss) →
        st.global_step ≤ st1.global_step) ∧
    (∀ msg st1, runEpochAux ctx phase dl st da sa = Except.error (msg, st1) →
        st.global_step ≤ st1.global_step)
  | [], st, da, sa => by
    constructor
    · intro st1 ds ss h
      simp [runEpochAux] at h
      rw [h.1]
    · intro msg st1 h
      simp [runEpochAux] at h
  | b :: rest, st, da, sa => by
    constructor
    · intro st1 ds ss h
      simp only [runEpochAux] at h
      cases hb : runBatch ctx st b phase with
      | error e =>
        rw [hb] at h
        cases h
      | ok v =>
        rw [hb] at h
        obtain ⟨stN, d, s⟩ := v
        have hstep := (runBatch_step_mono ctx st b phase).1 stN d s hb
        have hle : st.global_step ≤ stN.global_step := by
          rw [hstep]
          split <;> omega
        have ih := (runEpochAux_step_mono ctx phase rest stN (da ++ [d]) (sa ++ [s])).1
        exact le_trans hle (ih st1 ds ss h)
    · intro msg st1 h
      simp only [runEpochAux] at h
      cases hb : runBatch ctx st b phase with
      | error e =>
        rw [hb] at h
        cases h
        exact le_of_eq ((runBatch_step_mono ctx st b phase).2 msg st1 hb).symm
      | ok v =>
        rw [hb] at h
        obtain ⟨stN, d, s⟩ := v
        have hstep := (runBatch_step_mono ctx st b phase).1 stN d s hb
        have hle : st.global_step ≤ stN.global_step := by
          rw [hstep]
          split <;> omega
        have ih := (runEpochAux_step_mono ctx phase rest stN (da ++ [d]) (sa ++ [s])).2
        exact le_trans hle (ih msg st1 h)

/-! Per-claim theorems. -/

/-- C2: for every batch and every phase string outside train and eval,
run_batch raises the unrecognized-phase error, and the error carries the
runner state exactly as it was before the call: optimizer state, global step
counter and model parameters are unchanged, with no mutation left behind. -/
theorem runBatch_unknown_phase (ctx : Ctx T P O S V) (st : St P O S) (batch : Batch T)
    (phase : String) (h1 : phase ≠ "train") (h2 : phase ≠ "eval") :
    runBatch ctx st batch phase = Except.error ("Unknown phase: " ++ phase ++ ".", st) := by
  simp [runBatch, h1, h2]

/-- Witness for C2 at the concrete phase string test. -/
theorem runBatch_unknown_phase_witness :
    runBatch ctxW stW batchW ("test") =
      Except.error ("Unknown phase: " ++ "test" ++ ".", stW) :=
  runBatch_unknown_phase ctxW stW batchW ("test") (by decide) (by decide)

/-- C3 counterexample: in a state with optimizer and scheduler initialized
but num_training_steps = 0 (reachable by a run call with zero epochs or an
empty training dataloader), a train batch raises ZeroDivisionError while
computing the printed epoch fraction, and performs no optimizer step, no
scheduler step and no global-step increment: the carried state differs from
the input state only in the model train/eval flag. -/
theorem runBatch_train_zero_steps_raises :
    stZeroSteps.optimizer.isSome = true ∧ stZeroSteps.scheduler.isSome = true ∧
    runBatch ctxW stZeroSteps batchW ("train") =
      Except.error ("ZeroDivisionError: division by zero",
        { stZeroSteps with training := true }) := by
  refine ⟨rfl, rfl, ?_⟩
  rfl

/-- C3 (amended with num_training_steps > 0): given an initialized optimizer
and scheduler and a positive training-step count, a train batch succeeds,
its resulting state is exactly one zero-grad plus optimizer step and one
scheduler step away from the input state, and the global step counter is
incremented by exactly 1. -/
theorem runBatch_train_one_step (ctx : Ctx T P O S V) (st : St P O S) (batch : Batch T)
    (opt : O) (sch : S) (hopt : st.optimizer = some opt) (hsch : st.scheduler = some sch)
    (hsteps : st.num_training_steps ≠ 0) :
    runBatch ctx st batch ("train") =
      Except.ok
        ({ st with training := true
                   params := (ctx.optStep (ctx.zeroGrad opt) st.params
                     (ctx.lossFn (descEmb ctx true st.params batch)
                       (seqEmb ctx true st.params batch))).2
                   optimizer := some (ctx.schedStep sch (ctx.optStep (ctx.zeroGrad opt) st.params
                     (ctx.lossFn (descEmb ctx true st.params batch)
                       (seqEmb ctx true st.params batch))).1).2
                   scheduler := some (ctx.schedStep sch (ctx.optStep (ctx.zeroGrad opt) st.params
                     (ctx.lossFn (descEmb ctx true st.params batch)
                       (seqEmb ctx true st.params batch))).1).1
                   global_step := st.global_step + 1 },
         descEmb ctx true st.params batch, seqEmb ctx true st.params batch) ∧
    (∀ st1 d s, runBatch ctx st batch ("train") = Except.ok (st1, d, s) →
        st1.global_step = st.global_step + 1) := by
  refine ⟨runBatch_train_eq ctx st batch opt sch hopt hsch hsteps, ?_⟩
  intro st1 d s h
  rw [runBatch_train_eq ctx st batch opt sch hopt hsch hsteps] at h
  cases h
  rfl

/-- Witness for C3 at the concrete context, state and batch. -/
theorem runBatch_train_one_step_witness :
    runBatch ctxW stW batchW ("train") =
      Except.ok
        ({ stW with
            training := true
            params := 1
            optimizer := some (1, 0)
            scheduler := some 1
            global_step := 1 }, [0, 0], [1, 1]) := by
  have h := (runBatch_train_one_step ctxW stW batchW (1, 0) 0 rfl rfl (by decide)).1
  exact h

/-- C4: for every context, state and batch, an eval batch succeeds, returns
the two no-grad forward passes, and changes nothing in the state but the
model train/eval flag: global step, parameters, optimizer and scheduler are
unchanged. -/
theorem runBatch_eval_frame (ctx : Ctx T P O S V) (st : St P O S) (batch : Batch T) :
    runBatch ctx st batch ("eval") =
      Except.ok ({ st with training := false },
        descEmb ctx false st.params batch, seqEmb ctx false st.params batch) ∧
    (∀ st1 d s, runBatch ctx st batch ("eval") = Except.ok (st1, d, s) →
        st1.global_step = st.global_step ∧ st1.params = st.params ∧
        st1.optimizer = st.optimizer ∧ st1.scheduler = st.scheduler) := by
  refine ⟨runBatch_eval_eq ctx st batch, ?_⟩
  intro st1 d s h
  rw [runBatch_eval_eq ctx st batch] at h
  cases h
  exact ⟨rfl, rfl, rfl, rfl⟩

/-- Witness for C4 at the concrete context, state and batch. -/
theorem runBatch_eval_frame_witness :
    stW.global_step = stW.global_step ∧ stW.params = stW.params ∧
    stW.optimizer = stW.optimizer ∧ stW.scheduler = stW.scheduler :=
  (runBatch_eval_frame ctxW stW batchW).2 { stW with training := false } [0, 0] [1, 1]
    (by rfl)

/-- C9: on a dataloader that yields no batches, run_epoch fails for every
phase: the collected embedding lists are empty and torch.cat raises, so a
non-empty dataloader is an unstated precondition of run_epoch. -/
theorem runEpoch_empty_dataloader (ctx : Ctx T P O S V) (st : St P O S) (phase : String) :
    runEpoch ctx st ([] : List (Batch T)) phase =
      Except.error ("RuntimeError: torch.cat expected a non-empty TensorList", st) := rfl

/-- C7 counterexample: on the empty dataloader, run_epoch raises (torch.cat
of the empty collected list) instead of returning metrics, so the claim
quantified over every dataloader fails. -/
theorem runEpoch_empty_counterexample :
    runEpoch ctxW stW ([] : List (Batch Int)) ("eval") =
      Except.error ("RuntimeError: torch.cat expected a non-empty TensorList", stW) := rfl

/-- C10: two batches that differ only in time_since_last_event and/or
type_event (time_since_start, type_text and description equal) produce
identical run_batch results in every phase and from every state: those two
fields are moved to the device but never passed to the model. -/
theorem runBatch_unused_fields (ctx : Ctx T P O S V) (st : St P O S) (b1 b2 : Batch T)
    (phase : String) (h1 : b1.time_since_start = b2.time_since_start)
    (h2 : b1.type_text = b2.type_text) (h3 : b1.description = b2.description) :
    runBatch ctx st b1 phase = runBatch ctx st b2 phase := by
  simp [runBatch, h1, h2, h3]

/-- Witness for C10: concrete batches differing exactly in the two unused
fields. -/
theorem runBatch_unused_fields_witness :
    runBatch ctxW stW batchW ("eval") = runBatch ctxW stW batchW2 ("eval") :=
  runBatch_unused_fields ctxW stW batchW batchW2 ("eval") rfl rfl rfl

/-- Closed form of the initialization prefix of run when a training
dataloader is supplied. -/
theorem runInit_some_eq (ctx : Ctx T P O S V) (st : St P O S) (l : List (Batch T))
    (lr : Rat) (ep : Nat) (wr : Rat) :
    runInit ctx st (some l) lr ep wr =
      Except.ok
        ({ st with
            num_train_epochs := ep
            num_training_steps := ep * l.length
            num_warmup_steps := pyInt (wr * ((ep * l.length : Nat) : Rat))
            global_step := 0
            optimizer := some (ctx.adamInit st.params lr) },
         ctx.adamInit st.params lr) := rfl

/-- The runner state produced by initialization on a 2-batch training
dataloader, 3 epochs, learning rate 1 and warmup ratio one half. -/
def stInitW : St Int (Rat × Nat) Nat :=
  { stW with
      num_train_epochs := 3
      num_training_steps := 6
      num_warmup_steps := pyInt ((1 / 2 : Rat) * ((3 * 2 : Nat) : Rat))
      global_step := 0
      optimizer := some (1, 0) }

/-- C7 (amended to non-empty dataloaders and the two recognized phases):
run_epoch in eval phase processes every batch, concatenates the per-batch
description and sequence embeddings across the whole epoch, and returns the
similarity-evaluation metrics over the full concatenated embeddings; in
train phase (under an initialized optimizer and scheduler and a positive
training-step count) it processes every batch -- the global step advances by
the number of batches -- and returns the empty metrics mapping. -/
theorem runEpoch_behavior (ctx : Ctx T P O S V) (st : St P O S) (dl : List (Batch T))
    (hne : dl ≠ []) :
    runEpoch ctx st dl ("eval") =
      Except.ok ({ st with training := false },
        ctx.evalSim ((dl.map (descEmb ctx false st.params)).flatten)
          ((dl.map (seqEmb ctx false st.params)).flatten)) ∧
    (st.optimizer.isSome = true → st.scheduler.isSome = true →
      st.num_training_steps ≠ 0 →
      ∃ st1, runEpoch ctx st dl ("train") = Except.ok (st1, []) ∧
        st1.global_step = st.global_step + dl.length) := by
  obtain ⟨b, rest, rfl⟩ : ∃ b rest, dl = b :: rest := by
    cases dl with
    | nil => exact absurd rfl hne
    | cons b rest => exact ⟨b, rest, rfl⟩
  constructor
  · have haux := runEpochAux_eval ctx (b :: rest) st [] []
    simp only [runEpoch, haux]
    simp [torchCat]
  · intro h1 h2 h3
    obtain ⟨st1, descs, seqs, heq, hld, hls, _, _, _, hg⟩ :=
      runEpochAux_train_ok ctx (b :: rest) st [] [] h1 h2 h3
    refine ⟨st1, ?_, ?_⟩
    · simp only [runEpoch, heq]
      cases descs with
      | nil => simp at hld
      | cons d ds =>
        cases seqs with
        | nil => simp at hls
        | cons s ss => simp [torchCat]
    · simp only [List.length_cons] at hg ⊢
      omega

/-- Witness for C7: a singleton dataloader in eval phase, with the metrics
computed from the concatenated embeddings of its one batch. -/
theorem runEpoch_behavior_witness :
    runEpoch ctxW stW [batchW] ("eval") =
      Except.ok ({ stW with training := false }, [("cosine_mrr", (2 : Rat))]) := by
  have h := (runEpoch_behavior ctxW stW [batchW] (by simp)).1
  exact h

/-- C6: when a training dataloader with B batches is supplied, the
initialization prefix of run computes num_training_steps = B * E and
num_warmup_steps = int(r * B * E), truncation toward zero, which agrees
with the floor for a nonnegative ratio. -/
theorem runInit_step_counts (ctx : Ctx T P O S V) (st : St P O S) (l : List (Batch T))
    (lr : Rat) (ep : Nat) (wr : Rat) (st1 : St P O S) (opt : O)
    (h : runInit ctx st (some l) lr ep wr = Except.ok (st1, opt)) :
    st1.num_training_steps = l.length * ep ∧
    st1.num_warmup_steps = pyInt (wr * ((l.length * ep : Nat) : Rat)) ∧
    (0 ≤ wr → st1.num_warmup_steps = Int.floor (wr * ((l.length * ep : Nat) : Rat))) := by
  rw [runInit_some_eq] at h
  injection h with h
  injection h with hA hB
  subst hA
  have h2 : pyInt (wr * ((ep * l.length : Nat) : Rat)) =
      pyInt (wr * ((l.length * ep : Nat) : Rat)) := by
    rw [Nat.mul_comm]
  refine ⟨Nat.mul_comm ep l.length, h2, ?_⟩
  intro hwr
  rw [show ((l.length * ep : Nat) : Rat) = ((ep * l.length : Nat) : Rat) by rw [Nat.mul_comm]]
  exact pyInt_eq_floor _ (mul_nonneg hwr (Nat.cast_nonneg _))

/-- Witness for C6: two batches, three epochs, ratio one half: six training
steps and three warmup steps. -/
theorem runInit_step_counts_witness :
    stInitW.num_training_steps = 2 * 3 ∧
    stInitW.num_warmup_steps = pyInt ((1 / 2 : Rat) * ((2 * 3 : Nat) : Rat)) := by
  have h := runInit_step_counts ctxW stW [batchW, batchW] 1 3 (1 / 2) stInitW (1, 0)
    (by rfl)
  exact ⟨h.1, h.2.1⟩

/-- C5 counterexample: with dataloader_train = None and an unrecognized
scheduler type, run raises the TypeError from len(dataloader_train), not the
unrecognized-schedule error, so the claim quantified over every call fails. -/
theorem run_unknown_scheduler_none_counterexample :
    run ctxW stW none none none 1 ("bogus") 1 0 =
      Except.error ("TypeError: object of type NoneType has no len()",
        { stW with num_train_epochs := 1 }) := rfl

/-- C5 (amended to calls that supply a training dataloader): with an
lr_scheduler_type outside the four enumerated values, run raises the
unrecognized-schedule error before any epoch executes: the error state is
exactly the post-initialization state -- parameters untouched, global step 0,
the old scheduler still in place -- and no evaluation or training epoch has
run (the result does not depend on the model, loss or metric functions). -/
theorem run_unknown_scheduler (ctx : Ctx T P O S V) (st : St P O S) (l : List (Batch T))
    (dlVal dlTest : Option (List (Batch T))) (lr : Rat) (schedType : String) (ep : Nat)
    (wr : Rat) (h1 : schedType ≠ "constant") (h2 : schedType ≠ "constant_with_warmup")
    (h3 : schedType ≠ "linear") (h4 : schedType ≠ "cosine") :
    run ctx st (some l) dlVal dlTest lr schedType ep wr =
      Except.error ("Unknown learning rate scheduler type: " ++ schedType,
        { st with
            num_train_epochs := ep
            num_training_steps := ep * l.length
            num_warmup_steps := pyInt (wr * ((ep * l.length : Nat) : Rat))
            global_step := 0
            optimizer := some (ctx.adamInit st.params lr) }) := by
  simp [run, runInit_some_eq, schedulerInit, h1, h2, h3, h4]

/-- Witness for C5 at the concrete scheduler type bogus. -/
theorem run_unknown_scheduler_witness :
    run ctxW stW (some [batchW]) none none 1 ("bogus") 1 0 =
      Except.error ("Unknown learning rate scheduler type: " ++ "bogus",
        { stW with
            num_train_epochs := 1
            num_training_steps := 1 * [batchW].length
            num_warmup_steps := pyInt (0 * ((1 * [batchW].length : Nat) : Rat))
            global_step := 0
            optimizer := some (ctxW.adamInit stW.params 1) }) :=
  run_unknown_scheduler ctxW stW [batchW] none none 1 ("bogus") 1 0
    (by decide) (by decide) (by decide) (by decide)

/-- C1 (the code evaluated at the failing input): run with dataloader_train
= None and validation and test dataloaders supplied raises the TypeError
from len(dataloader_train) instead of skipping training and performing the
evaluation epochs. -/
theorem run_none_train_loader_raises :
    run ctxW stW none (some [batchW]) (some [batchW]) 1 ("constant") 1 0 =
      Except.error ("TypeError: object of type NoneType has no len()",
        { stW with num_train_epochs := 1 }) := rfl

/-- C8: the global step counter is reset to 0 by the initialization prefix
of every run invocation that passes argument validation; across any batch it
gains exactly 1 in train phase, is unchanged in every other phase and on
every raise; and across any successful epoch it is non-decreasing. -/
theorem global_step_discipline (ctx : Ctx T P O S V) :
    (∀ (st : St P O S) (l : List (Batch T)) (lr : Rat) (ep : Nat) (wr : Rat)
        (st1 : St P O S) (opt : O),
        runInit ctx st (some l) lr ep wr = Except.ok (st1, opt) → st1.global_step = 0) ∧
    (∀ (st : St P O S) (batch : Batch T) (phase : String) (st1 : St P O S)
        (d s : List V), runBatch ctx st batch phase = Except.ok (st1, d, s) →
        st1.global_step = if phase = "train" then st.global_step + 1 else st.global_step) ∧
    (∀ (st : St P O S) (batch : Batch T) (phase : String) (msg : String)
        (st1 : St P O S), runBatch ctx st batch phase = Except.error (msg, st1) →
        st1.global_step = st.global_step) ∧
    (∀ (st : St P O S) (dl : List (Batch T)) (phase : String) (st1 : St P O S)
        (m : Metrics), runEpoch ctx st dl phase = Except.ok (st1, m) →
        st.global_step ≤ st1.global_step) := by
  refine ⟨?_, ?_, ?_, ?_⟩
  · intro st l lr ep wr st1 opt h
    rw [runInit_some_eq] at h
    injection h with h
    injection h with hA hB
    subst hA
    rfl
  · intro st batch phase st1 d s h
    exact (runBatch_step_mono ctx st batch phase).1 st1 d s h
  · intro st batch phase msg st1 h
    exact (runBatch_step_mono ctx st batch phase).2 msg st1 h
  · intro st dl phase st1 m h
    simp only [runEpoch] at h
    cases haux : runEpochAux ctx phase dl st [] [] with
    | error e =>
      simp only [haux] at h
      simp at h
    | ok v =>
      obtain ⟨stA, da, sa⟩ := v
      simp only [haux] at h
      have hmono := (runEpochAux_step_mono ctx phase dl st [] []).1 stA da sa haux
      cases hcd : torchCat da with
      | none => simp [hcd] at h
      | some cd =>
        cases hcs : torchCat sa with
        | none => simp [hcd, hcs] at h
        | some cs =>
          simp only [hcd, hcs] at h
          by_cases hp : phase = "eval"
          · simp [hp] at h
            rw [← h.1]
            exact hmono
          · simp [hp] at h
            rw [← h.1]
            exact hmono

/-- Witness for C8 at the concrete initialization. -/
theorem global_step_discipline_witness :
    stInitW.global_step = 0 :=
  (global_step_discipline ctxW).1 stW [batchW, batchW] 1 3 (1 / 2) stInitW (1, 0)
    (by rfl)

end TPPLLM
